import Mathlib

/-!
Shallow embedding of the LabubuBot repository: a Puppeteer checkout-automation
script (the flow script `run` in the unnamed main source file) together with its
constant adapter (`src/utils/constant.js`).  The flow script is modelled as a
state-transformer over an explicit `FlowState` (trace of browser-controller
calls, log lines, page-local storage, ...) driven by an environment `Env` that
decides, for each awaited controller call in order, whether it resolves or
rejects — the "test double browser controller" of the specification.
-/

set_option maxRecDepth 4000

namespace LabubuBot

/-! ### JSON values and `JSON.stringify`

Storage-seed values are JSON-serializable; the page script injected by the flow
stores `JSON.stringify(storage[key])` for each key. -/

inductive JsonVal where
  | num (n : Int)
  | str (s : String)
  | boolean (b : Bool)
  | null
deriving DecidableEq

def jsonEscapeChar (c : Char) : String :=
  if c = '"' then "\\\""
  else if c = '\\' then "\\\\"
  else String.singleton c

def jsonEscape (s : String) : String :=
  String.join (s.data.map jsonEscapeChar)

def JsonVal.stringify : JsonVal → String
  | .num n => toString n
  | .str s => "\"" ++ jsonEscape s ++ "\""
  | .boolean b => if b then "true" else "false"
  | .null => "null"

/-! ### The page `localStorage` model

`localStorage.setItem` overwrites; `getItem` reads the current binding.  The
store is an association list where the most recent binding of a key shadows
older ones. -/

abbrev StorageMap : Type := List (String × String)

def StorageMap.setItem (st : StorageMap) (k v : String) : StorageMap :=
  (k, v) :: st

def StorageMap.getItem (st : StorageMap) (k : String) : Option String :=
  (st.find? (fun p => p.1 = k)).map Prod.snd

/-- The page script of the storage-seed injection step (source lines 36-41):
`for (let key in storage) localStorage.setItem(key, JSON.stringify(storage[key]))`. -/
def injectStorage (seed : List (String × JsonVal)) (st : StorageMap) : StorageMap :=
  seed.foldl (fun acc kv => acc.setItem kv.1 kv.2.stringify) st

/-! ### Settings (configuration loader output) and the constant adapter -/

structure Cookie where
  name : String
  value : String
deriving DecidableEq

structure Creds where
  username : String
  password : String
deriving DecidableEq

structure LocatorsCfg where
  login_page : String
  agreement : String
  login_field : String
  login_btn : String
  password_field : String
  buy_now : String
  go_to_cart : String
  checkout : String
  checkbox : String
  pay : String
  ordering : String
deriving DecidableEq

structure ConfigCfg where
  locators : LocatorsCfg
  target_product : String
deriving DecidableEq

/-- The value produced by the configuration loader (`config_loader`): the
fields destructured at the top of `src/utils/constant.js`. -/
structure Loaded where
  creds : Creds
  cookie : List Cookie
  storage : List (String × JsonVal)
  config : ConfigCfg
deriving DecidableEq

structure CredsConst where
  USERNAME : String
  PASSWORD : String
deriving DecidableEq

structure LocatorsConst where
  LOGIN_PAGE : String
  AGREEMENT : String
  LOGIN_FIELD : String
  LOGIN_BTN : String
  PASSWORD_FIELD : String
  BUY_NOW : String
  GO_TO_CART : String
  CHECKOUT : String
  CHECKBOX : String
  PAY : String
  ORDERING : String
deriving DecidableEq

/-- The shape of `module.exports` of `src/utils/constant.js`. -/
structure Constants where
  CREDS : CredsConst
  LOCATORS : LocatorsConst
  TARGET_PRODUCT : String
  COOKIE : List Cookie
  STORAGE : List (String × JsonVal)
deriving DecidableEq

/-- The constant adapter `src/utils/constant.js`: re-export the loader's
fields under the stable upper-case naming scheme. -/
def constantAdapter (s : Loaded) : Constants :=
  { CREDS := { USERNAME := s.creds.username, PASSWORD := s.creds.password }
    LOCATORS :=
      { LOGIN_PAGE := s.config.locators.login_page
        AGREEMENT := s.config.locators.agreement
        LOGIN_FIELD := s.config.locators.login_field
        LOGIN_BTN := s.config.locators.login_btn
        PASSWORD_FIELD := s.config.locators.password_field
        BUY_NOW := s.config.locators.buy_now
        GO_TO_CART := s.config.locators.go_to_cart
        CHECKOUT := s.config.locators.checkout
        CHECKBOX := s.config.locators.checkbox
        PAY := s.config.locators.pay
        ORDERING := s.config.locators.ordering }
    TARGET_PRODUCT := s.config.target_product
    COOKIE := s.cookie
    STORAGE := s.storage }

/-! ### Browser-controller calls, log lines, outcomes

Every awaited call of the flow script on the browser controller is recorded as
an `Event`.  The environment `Env` (the test double) decides, for the n-th
controller call issued, whether it resolves (`ok`) or rejects with an error
message (`err`). -/

inductive Event where
  | launch (headless : Bool)
  | newPage
  | goto (url : String)
  | setViewport (width height : Nat)
  | locatorClick (selector : String) (force : Bool)
  | setCookie (cookies : List Cookie)
  | evalStorage (seed : List (String × JsonVal))
  | evalHighlight (selector : String)
  | reload
  | waitForSelector (selector : String) (timeoutMs : Option Nat) (visible : Bool) (attached : Bool)
  | waitForNavigation (networkIdle2 : Bool)
  | hover (selector : String)
  | delay (ms : Nat)
  | close
deriving DecidableEq

inductive LogLine where
  | info (msg : String)
  | warn (msg : String)
  | error (msg : String)
deriving DecidableEq

def LogLine.isError : LogLine → Bool
  | .error _ => true
  | _ => false

inductive Outcome where
  | ok
  | err (msg : String)
deriving DecidableEq

def Env : Type := Nat → Outcome

/-- The environment in which every controller call resolves immediately. -/
def envAllOk : Env := fun _ => Outcome.ok

/-! ### Flow state and the flow monad -/

structure FlowState where
  trace : List Event
  logs : List LogLine
  envIdx : Nat
  currentUrl : String
  pageStorage : StorageMap
  closed : Bool
  diverged : Bool
deriving DecidableEq

def initState : FlowState :=
  { trace := [], logs := [], envIdx := 0, currentUrl := "",
    pageStorage := ([] : List (String × String)), closed := false, diverged := false }

/-- State transformer with a JS-exception channel (`Except String`). -/
def FlowM (α : Type) : Type := FlowState → FlowState × Except String α

def fpure {α : Type} (a : α) : FlowM α := fun s => (s, Except.ok a)

def fbind {α β : Type} (m : FlowM α) (f : α → FlowM β) : FlowM β := fun s =>
  match m s with
  | (s1, Except.ok a) => f a s1
  | (s1, Except.error e) => (s1, Except.error e)

instance : Monad FlowM where
  pure := fpure
  bind := fbind

@[simp]
theorem flowM_bind_def {α β : Type} (m : FlowM α) (f : α → FlowM β) :
    m >>= f = fbind m f := rfl

@[simp]
theorem flowM_pure_def {α : Type} (a : α) : (pure a : FlowM α) = fpure a := rfl

/-- `try { m } catch (e) { h e }` of JS. -/
def tryCatch {α : Type} (m : FlowM α) (h : String → FlowM α) : FlowM α := fun s =>
  match m s with
  | (s1, Except.ok a) => (s1, Except.ok a)
  | (s1, Except.error e) => h e s1

def modifyS (f : FlowState → FlowState) : FlowM Unit := fun s => (f s, Except.ok ())

def logInfo (m : String) : FlowM Unit :=
  modifyS fun s => { s with logs := s.logs ++ [LogLine.info m] }

def logWarn (m : String) : FlowM Unit :=
  modifyS fun s => { s with logs := s.logs ++ [LogLine.warn m] }

def logError (m : String) : FlowM Unit :=
  modifyS fun s => { s with logs := s.logs ++ [LogLine.error m] }

/-- `log.info('[+] QR URL: ' + page.url())`: a log line reading the page URL. -/
def logInfoUrl (pre : String) : FlowM Unit :=
  modifyS fun s => { s with logs := s.logs ++ [LogLine.info (pre ++ s.currentUrl)] }

/-- Issue one awaited browser-controller call: record the event, consume the
next environment outcome, and raise when the environment rejects the call. -/
def envCall (env : Env) (e : Event) : FlowM Unit := fun s =>
  match env s.envIdx with
  | Outcome.ok =>
      ({ s with trace := s.trace ++ [e], envIdx := s.envIdx + 1 }, Except.ok ())
  | Outcome.err msg =>
      ({ s with trace := s.trace ++ [e], envIdx := s.envIdx + 1 }, Except.error msg)

def setUrl (u : String) : FlowM Unit := modifyS fun s => { s with currentUrl := u }

def applyStorage (seed : List (String × JsonVal)) : FlowM Unit :=
  modifyS fun s => { s with pageStorage := injectStorage seed s.pageStorage }

def setClosed : FlowM Unit := modifyS fun s => { s with closed := true }

def markDiverged : FlowM Unit := modifyS fun s => { s with diverged := true }

/-- `delay(ms)` from the util module: an awaited sleep; it always resolves. -/
def doDelay (ms : Nat) : FlowM Unit :=
  modifyS fun s => { s with trace := s.trace ++ [Event.delay ms] }

/-! ### The flow script `run` (the unnamed main source file)

The script is one linear `try` block.  `preSteps` covers steps 1-5 (launch
through reload), `pollBuyNow` is the step-6 unbounded `while (!found)` poll
(modelled with explicit fuel: returning `false` means the fuel was exhausted
with the loop still running, i.e. the concrete JS execution has not left the
loop after that many iterations), `mainSteps` covers the remainder of steps
6-14 up to the terminal long idle, and `doClose` is the final
`browser.close()`.  `run` wraps the body in the single top-level
`try ... catch (error) { log.error('[-] Error: ' + error) }`. -/

def preSteps (C : Constants) (env : Env) : FlowM Unit := do
  envCall env (Event.launch false)
  envCall env Event.newPage
  envCall env (Event.goto C.TARGET_PRODUCT)
  setUrl C.TARGET_PRODUCT
  logInfo "[+] Open login page"
  envCall env (Event.setViewport 1080 1024)
  logInfo "[+] setViewport to 1080x1024"
  envCall env (Event.locatorClick C.LOCATORS.AGREEMENT false)
  logInfo "[+] accepted agreement"
  envCall env (Event.setCookie C.COOKIE)
  logInfo "[+] set cookie"
  envCall env (Event.evalStorage C.STORAGE)
  applyStorage C.STORAGE
  logInfo "[+] set local storage"
  envCall env Event.reload
  logInfo "[+] reload web page"

/-- Step 6: `while (!found) { try { await page.waitForSelector(BUY_NOW,
{ timeout: 3000 }); log.info(...); found = true } catch { log.warn(...) } }`. -/
def pollBuyNow (env : Env) (sel : String) : Nat → FlowM Bool
  | 0 => fpure false
  | fuel + 1 =>
    tryCatch
      (do
        envCall env (Event.waitForSelector sel (some 3000) false false)
        logInfo "[+] ADD_TO_CART button found!"
        fpure true)
      (fun _ => do
        logWarn "[-] ADD_TO_CART not available, retrying..."
        pollBuyNow env sel fuel)

/-- Steps 6 (the click after the poll) through 14, ending with the terminal
long idle `await delay(999999)`. -/
def mainSteps (C : Constants) (env : Env) : FlowM Unit := do
  envCall env (Event.locatorClick C.LOCATORS.BUY_NOW false)
  logInfo "[+] ADD_TO_CART clicked"
  envCall env (Event.evalHighlight C.LOCATORS.GO_TO_CART)
  tryCatch
    (do
      envCall env (Event.waitForSelector C.LOCATORS.GO_TO_CART (some 5000) false true)
      envCall env (Event.locatorClick C.LOCATORS.GO_TO_CART true)
      logInfo "[+] GO_TO_CART button found and clicked!")
    (fun _ => logWarn "[-] GO_TO_CART not available, retrying...")
  envCall env (Event.waitForNavigation false)
  envCall env (Event.waitForSelector C.LOCATORS.CHECKBOX none false false)
  envCall env (Event.locatorClick C.LOCATORS.CHECKBOX false)
  logInfo "[+] CHECKBOX found and and clicked!"
  envCall env (Event.waitForSelector C.LOCATORS.CHECKOUT (some 1000) false false)
  logInfo "[+] CHECKOUT button found"
  envCall env (Event.locatorClick C.LOCATORS.CHECKOUT false)
  logInfo "[+] Proceeding to checkout"
  envCall env (Event.waitForNavigation true)
  doDelay 5000
  logInfo "[+] waiting for page to load"
  envCall env (Event.waitForSelector C.LOCATORS.PAY (some 8000) true false)
  logInfo "[+] found PAY button"
  tryCatch
    (do
      envCall env (Event.locatorClick C.LOCATORS.PAY true)
      logInfo "[+] PAY button clicked")
    (fun _ => logWarn "[-] pay button not clicked")
  envCall env (Event.hover C.LOCATORS.ORDERING)
  logInfo "[+] BUY!!"
  envCall env (Event.waitForNavigation false)
  logInfoUrl "[+] QR URL: "
  logInfo "[+] ALL THING DONE! LET\x27S PAY!"
  logWarn "[!] CTRL+C When Everything Done!"
  logWarn "[!] Total processing time: ? ms"
  logInfoUrl "[+] QR URL: "
  doDelay 999999

/-- `await browser.close()`: the browser is recorded as closed only when the
close call itself resolves. -/
def doClose (env : Env) : FlowM Unit := do
  envCall env Event.close
  setClosed

/-- The body of the top-level `try` block.  When the step-6 poll exhausts its
fuel (the JS loop is still spinning), nothing after the loop executes. -/
def runBody (C : Constants) (env : Env) (fuel : Nat) : FlowM Unit := do
  preSteps C env
  let found ← pollBuyNow env C.LOCATORS.BUY_NOW fuel
  if found then
    mainSteps C env
    doClose env
  else
    markDiverged

/-- The whole flow script `run()`: the body inside the single top-level
`catch`, started from the initial state. -/
def run (C : Constants) (env : Env) (fuel : Nat) : FlowState :=
  (tryCatch (runBody C env fuel) (fun e => logError ("[-] Error: " ++ e)) initState).1

/-! ### Expected traces and logs of distinguished executions -/

/-- The full controller-call trace of a run in which every call resolves
immediately (one poll iteration at step 6). -/
def fullTrace (C : Constants) : List Event :=
  [Event.launch false, Event.newPage, Event.goto C.TARGET_PRODUCT,
   Event.setViewport 1080 1024, Event.locatorClick C.LOCATORS.AGREEMENT false,
   Event.setCookie C.COOKIE, Event.evalStorage C.STORAGE, Event.reload,
   Event.waitForSelector C.LOCATORS.BUY_NOW (some 3000) false false,
   Event.locatorClick C.LOCATORS.BUY_NOW false,
   Event.evalHighlight C.LOCATORS.GO_TO_CART,
   Event.waitForSelector C.LOCATORS.GO_TO_CART (some 5000) false true,
   Event.locatorClick C.LOCATORS.GO_TO_CART true,
   Event.waitForNavigation false,
   Event.waitForSelector C.LOCATORS.CHECKBOX none false false,
   Event.locatorClick C.LOCATORS.CHECKBOX false,
   Event.waitForSelector C.LOCATORS.CHECKOUT (some 1000) false false,
   Event.locatorClick C.LOCATORS.CHECKOUT false,
   Event.waitForNavigation true, Event.delay 5000,
   Event.waitForSelector C.LOCATORS.PAY (some 8000) true false,
   Event.locatorClick C.LOCATORS.PAY true,
   Event.hover C.LOCATORS.ORDERING, Event.waitForNavigation false,
   Event.delay 999999, Event.close]

/-- The log output of the all-resolving run. -/
def fullLogs (C : Constants) : List LogLine :=
  [LogLine.info "[+] Open login page", LogLine.info "[+] setViewport to 1080x1024",
   LogLine.info "[+] accepted agreement", LogLine.info "[+] set cookie",
   LogLine.info "[+] set local storage", LogLine.info "[+] reload web page",
   LogLine.info "[+] ADD_TO_CART button found!", LogLine.info "[+] ADD_TO_CART clicked",
   LogLine.info "[+] GO_TO_CART button found and clicked!",
   LogLine.info "[+] CHECKBOX found and and clicked!",
   LogLine.info "[+] CHECKOUT button found", LogLine.info "[+] Proceeding to checkout",
   LogLine.info "[+] waiting for page to load", LogLine.info "[+] found PAY button",
   LogLine.info "[+] PAY button clicked", LogLine.info "[+] BUY!!",
   LogLine.info ("[+] QR URL: " ++ C.TARGET_PRODUCT),
   LogLine.info "[+] ALL THING DONE! LET\x27S PAY!",
   LogLine.warn "[!] CTRL+C When Everything Done!",
   LogLine.warn "[!] Total processing time: ? ms",
   LogLine.info ("[+] QR URL: " ++ C.TARGET_PRODUCT)]

/-- Trace of steps 1-5 (launch through reload). -/
def preTrace (C : Constants) : List Event :=
  [Event.launch false, Event.newPage, Event.goto C.TARGET_PRODUCT,
   Event.setViewport 1080 1024, Event.locatorClick C.LOCATORS.AGREEMENT false,
   Event.setCookie C.COOKIE, Event.evalStorage C.STORAGE, Event.reload]

/-- Log output of steps 1-5. -/
def preLogs : List LogLine :=
  [LogLine.info "[+] Open login page", LogLine.info "[+] setViewport to 1080x1024",
   LogLine.info "[+] accepted agreement", LogLine.info "[+] set cookie",
   LogLine.info "[+] set local storage", LogLine.info "[+] reload web page"]

/-- One step-6 poll attempt: wait for the buy-now selector, 3000ms bound. -/
def waitBuyEv (C : Constants) : Event :=
  Event.waitForSelector C.LOCATORS.BUY_NOW (some 3000) false false

def warnBuy : LogLine := LogLine.warn "[-] ADD_TO_CART not available, retrying..."

def infoBuyFound : LogLine := LogLine.info "[+] ADD_TO_CART button found!"

/-- Trace of everything after the step-6 poll succeeds (the buy-now click
through the terminal long idle; the final close is issued separately). -/
def postTrace (C : Constants) : List Event :=
  [Event.locatorClick C.LOCATORS.BUY_NOW false,
   Event.evalHighlight C.LOCATORS.GO_TO_CART,
   Event.waitForSelector C.LOCATORS.GO_TO_CART (some 5000) false true,
   Event.locatorClick C.LOCATORS.GO_TO_CART true,
   Event.waitForNavigation false,
   Event.waitForSelector C.LOCATORS.CHECKBOX none false false,
   Event.locatorClick C.LOCATORS.CHECKBOX false,
   Event.waitForSelector C.LOCATORS.CHECKOUT (some 1000) false false,
   Event.locatorClick C.LOCATORS.CHECKOUT false,
   Event.waitForNavigation true, Event.delay 5000,
   Event.waitForSelector C.LOCATORS.PAY (some 8000) true false,
   Event.locatorClick C.LOCATORS.PAY true,
   Event.hover C.LOCATORS.ORDERING, Event.waitForNavigation false,
   Event.delay 999999]

/-- Log output of everything after the step-6 poll succeeds (given the page
URL read at the end). -/
def postLogs (url : String) : List LogLine :=
  [LogLine.info "[+] ADD_TO_CART clicked",
   LogLine.info "[+] GO_TO_CART button found and clicked!",
   LogLine.info "[+] CHECKBOX found and and clicked!",
   LogLine.info "[+] CHECKOUT button found", LogLine.info "[+] Proceeding to checkout",
   LogLine.info "[+] waiting for page to load", LogLine.info "[+] found PAY button",
   LogLine.info "[+] PAY button clicked", LogLine.info "[+] BUY!!",
   LogLine.info ("[+] QR URL: " ++ url),
   LogLine.info "[+] ALL THING DONE! LET\x27S PAY!",
   LogLine.warn "[!] CTRL+C When Everything Done!",
   LogLine.warn "[!] Total processing time: ? ms",
   LogLine.info ("[+] QR URL: " ++ url)]

/-- Environment in which exactly the `k`-th controller call rejects. -/
def envFailAt (k : Nat) (msg : String) : Env :=
  fun i => if i = k then Outcome.err msg else Outcome.ok

/-- Environment in which the first eight calls (steps 1-5) resolve and every
later call rejects: the buy-now selector never appears. -/
def envErrFrom8 : Env :=
  fun i => if i < 8 then Outcome.ok else Outcome.err "t"

/-- Environment in which the first `k` step-6 poll attempts (calls 8 to
`8+k-1`) time out and every other call resolves. -/
def envK (k : Nat) : Env :=
  fun i => if 8 ≤ i ∧ i < 8 + k then Outcome.err "t" else Outcome.ok

/-- Full-state characterization of the all-resolving run. -/
theorem run_allOk_eval (C : Constants) :
    run C envAllOk 1 =
      { trace := fullTrace C, logs := fullLogs C, envIdx := 24,
        currentUrl := C.TARGET_PRODUCT,
        pageStorage := injectStorage C.STORAGE ([] : List (String × String)),
        closed := true, diverged := false } := by
  simp [run, runBody, preSteps, mainSteps, pollBuyNow, doClose, tryCatch, fbind, fpure,
        envCall, logInfo, logWarn, logError, logInfoUrl, modifyS, setUrl, applyStorage,
        setClosed, markDiverged, doDelay, envAllOk, initState, fullTrace, fullLogs]

/-- C1: for every Settings value, with a test-double controller that resolves
every call immediately, the flow invokes the controller operations in exactly
the order of `fullTrace`: launch (non-headless, then open a page), navigate to
the target product URL, setViewport 1080x1024, click the agreement selector,
setCookie with the configured cookies, evaluate the local-storage seed
injection, reload, then steps 6 through 14 in sequence, ending in the long
idle (`delay 999999`) before close. -/
theorem checkout_flow_call_order (C : Constants) :
    (run C envAllOk 1).trace = fullTrace C := by
  rw [run_allOk_eval]

/-- C7: the constant adapter is a pure key remapping of the loader's fields:
`CREDS.USERNAME = creds.username`, `CREDS.PASSWORD = creds.password`, each
`LOCATORS` field is the same-named lower-case `config.locators` field,
`TARGET_PRODUCT = config.target_product`, and `COOKIE` and `STORAGE` are the
loader's cookie and storage values unchanged. -/
theorem constant_adapter_pure_remap (s : Loaded) :
    (constantAdapter s).CREDS.USERNAME = s.creds.username ∧
    (constantAdapter s).CREDS.PASSWORD = s.creds.password ∧
    (constantAdapter s).LOCATORS.LOGIN_PAGE = s.config.locators.login_page ∧
    (constantAdapter s).LOCATORS.AGREEMENT = s.config.locators.agreement ∧
    (constantAdapter s).LOCATORS.LOGIN_FIELD = s.config.locators.login_field ∧
    (constantAdapter s).LOCATORS.LOGIN_BTN = s.config.locators.login_btn ∧
    (constantAdapter s).LOCATORS.PASSWORD_FIELD = s.config.locators.password_field ∧
    (constantAdapter s).LOCATORS.BUY_NOW = s.config.locators.buy_now ∧
    (constantAdapter s).LOCATORS.GO_TO_CART = s.config.locators.go_to_cart ∧
    (constantAdapter s).LOCATORS.CHECKOUT = s.config.locators.checkout ∧
    (constantAdapter s).LOCATORS.CHECKBOX = s.config.locators.checkbox ∧
    (constantAdapter s).LOCATORS.PAY = s.config.locators.pay ∧
    (constantAdapter s).LOCATORS.ORDERING = s.config.locators.ordering ∧
    (constantAdapter s).TARGET_PRODUCT = s.config.target_product ∧
    (constantAdapter s).COOKIE = s.cookie ∧
    (constantAdapter s).STORAGE = s.storage := by
  refine ⟨rfl, rfl, rfl, rfl, rfl, rfl, rfl, rfl, rfl, rfl, rfl, rfl, rfl, rfl, rfl, rfl⟩

/-- C4: a failure of the step-4 agreement click (controller call 4), of the
step-9 checkbox wait (call 14), or of the step-10 checkout wait (call 16)
propagates to the single top-level handler: the run ends at the failing call
(no subsequent flow step executes, the browser is never closed) and the log
output carries exactly one error line, produced by the handler. -/
theorem fatal_steps_propagate_to_handler (C : Constants) (msg : String) :
    (run C (envFailAt 4 msg) 1 =
      { trace := [Event.launch false, Event.newPage, Event.goto C.TARGET_PRODUCT,
                  Event.setViewport 1080 1024, Event.locatorClick C.LOCATORS.AGREEMENT false],
        logs := [LogLine.info "[+] Open login page",
                 LogLine.info "[+] setViewport to 1080x1024",
                 LogLine.error ("[-] Error: " ++ msg)],
        envIdx := 5, currentUrl := C.TARGET_PRODUCT,
        pageStorage := ([] : List (String × String)), closed := false, diverged := false } ∧
      ((run C (envFailAt 4 msg) 1).logs.countP LogLine.isError) = 1) ∧
    (run C (envFailAt 14 msg) 1 =
      { trace := preTrace C ++
          [waitBuyEv C, Event.locatorClick C.LOCATORS.BUY_NOW false,
           Event.evalHighlight C.LOCATORS.GO_TO_CART,
           Event.waitForSelector C.LOCATORS.GO_TO_CART (some 5000) false true,
           Event.locatorClick C.LOCATORS.GO_TO_CART true,
           Event.waitForNavigation false,
           Event.waitForSelector C.LOCATORS.CHECKBOX none false false],
        logs := preLogs ++
          [infoBuyFound, LogLine.info "[+] ADD_TO_CART clicked",
           LogLine.info "[+] GO_TO_CART button found and clicked!",
           LogLine.error ("[-] Error: " ++ msg)],
        envIdx := 15, currentUrl := C.TARGET_PRODUCT,
        pageStorage := injectStorage C.STORAGE ([] : List (String × String)),
        closed := false, diverged := false } ∧
      ((run C (envFailAt 14 msg) 1).logs.countP LogLine.isError) = 1) ∧
    (run C (envFailAt 16 msg) 1 =
      { trace := preTrace C ++
          [waitBuyEv C, Event.locatorClick C.LOCATORS.BUY_NOW false,
           Event.evalHighlight C.LOCATORS.GO_TO_CART,
           Event.waitForSelector C.LOCATORS.GO_TO_CART (some 5000) false true,
           Event.locatorClick C.LOCATORS.GO_TO_CART true,
           Event.waitForNavigation false,
           Event.waitForSelector C.LOCATORS.CHECKBOX none false false,
           Event.locatorClick C.LOCATORS.CHECKBOX false,
           Event.waitForSelector C.LOCATORS.CHECKOUT (some 1000) false false],
        logs := preLogs ++
          [infoBuyFound, LogLine.info "[+] ADD_TO_CART clicked",
           LogLine.info "[+] GO_TO_CART button found and clicked!",
           LogLine.info "[+] CHECKBOX found and and clicked!",
           LogLine.error ("[-] Error: " ++ msg)],
        envIdx := 17, currentUrl := C.TARGET_PRODUCT,
        pageStorage := injectStorage C.STORAGE ([] : List (String × String)),
        closed := false, diverged := false } ∧
      ((run C (envFailAt 16 msg) 1).logs.countP LogLine.isError) = 1) := by
  refine ⟨⟨?_, ?_⟩, ⟨?_, ?_⟩, ⟨?_, ?_⟩⟩ <;>
    simp [run, runBody, preSteps, mainSteps, pollBuyNow, doClose, tryCatch, fbind, fpure,
          envCall, logInfo, logWarn, logError, logInfoUrl, modifyS, setUrl, applyStorage,
          setClosed, markDiverged, doDelay, envFailAt, initState, preTrace, preLogs,
          waitBuyEv, infoBuyFound, LogLine.isError]

/-- A concrete Settings value used for counterexamples and witnesses. -/
def L0spec : LocatorsConst :=
  { LOGIN_PAGE := "lp", AGREEMENT := "ag", LOGIN_FIELD := "lf", LOGIN_BTN := "lb",
    PASSWORD_FIELD := "pf", BUY_NOW := "bn", GO_TO_CART := "gc", CHECKOUT := "co",
    CHECKBOX := "cb", PAY := "pa", ORDERING := "od" }

def C0spec : Constants :=
  { CREDS := { USERNAME := "user", PASSWORD := "pass" }, LOCATORS := L0spec,
    TARGET_PRODUCT := "tp", COOKIE := [], STORAGE := [] }

/-- C2 counterexample: the claim also asserts that a step-12 *pay wait*
timeout is non-fatal, but in the source only the pay *click* is inside the
`try`; the `waitForSelector(PAY, ...)` is outside it.  Concretely: when
controller call 19 (the pay wait) rejects, the run ends at that call with the
top-level error line, the hover step never executes, and the browser is never
closed — the flow does not continue to the next numbered step. -/
theorem pay_wait_timeout_is_fatal_cex :
    (run C0spec (envFailAt 19 "timeout") 1).logs.getLast? =
      some (LogLine.error "[-] Error: timeout") ∧
    Event.hover C0spec.LOCATORS.ORDERING ∉ (run C0spec (envFailAt 19 "timeout") 1).trace ∧
    (run C0spec (envFailAt 19 "timeout") 1).closed = false ∧
    (run C0spec (envFailAt 19 "timeout") 1).trace.getLast? =
      some (Event.waitForSelector C0spec.LOCATORS.PAY (some 8000) true false) := by
  decide

/-- C2 amended: (a) when the step-8 go-to-cart wait (call 11) times out, the
flow logs a warning and continues to step 9's navigation wait and on to
completion; (b) when the step-12 pay *click* (call 20) fails, the flow logs a
warning and continues to the hover step and on to completion; (c) a step-12
pay *wait* (call 19) timeout, by contrast, propagates to the top-level
handler and nothing after it executes. -/
theorem step8_wait_and_step12_click_nonfatal (C : Constants) (msg : String) :
    (run C (envFailAt 11 msg) 1 =
      { trace := preTrace C ++
          [waitBuyEv C, Event.locatorClick C.LOCATORS.BUY_NOW false,
           Event.evalHighlight C.LOCATORS.GO_TO_CART,
           Event.waitForSelector C.LOCATORS.GO_TO_CART (some 5000) false true,
           Event.waitForNavigation false,
           Event.waitForSelector C.LOCATORS.CHECKBOX none false false,
           Event.locatorClick C.LOCATORS.CHECKBOX false,
           Event.waitForSelector C.LOCATORS.CHECKOUT (some 1000) false false,
           Event.locatorClick C.LOCATORS.CHECKOUT false,
           Event.waitForNavigation true, Event.delay 5000,
           Event.waitForSelector C.LOCATORS.PAY (some 8000) true false,
           Event.locatorClick C.LOCATORS.PAY true,
           Event.hover C.LOCATORS.ORDERING, Event.waitForNavigation false,
           Event.delay 999999, Event.close],
        logs := preLogs ++
          [infoBuyFound, LogLine.info "[+] ADD_TO_CART clicked",
           LogLine.warn "[-] GO_TO_CART not available, retrying...",
           LogLine.info "[+] CHECKBOX found and and clicked!",
           LogLine.info "[+] CHECKOUT button found",
           LogLine.info "[+] Proceeding to checkout",
           LogLine.info "[+] waiting for page to load",
           LogLine.info "[+] found PAY button", LogLine.info "[+] PAY button clicked",
           LogLine.info "[+] BUY!!", LogLine.info ("[+] QR URL: " ++ C.TARGET_PRODUCT),
           LogLine.info "[+] ALL THING DONE! LET\x27S PAY!",
           LogLine.warn "[!] CTRL+C When Everything Done!",
           LogLine.warn "[!] Total processing time: ? ms",
           LogLine.info ("[+] QR URL: " ++ C.TARGET_PRODUCT)],
        envIdx := 23, currentUrl := C.TARGET_PRODUCT,
        pageStorage := injectStorage C.STORAGE ([] : List (String × String)),
        closed := true, diverged := false }) ∧
    (run C (envFailAt 20 msg) 1 =
      { trace := fullTrace C,
        logs := preLogs ++
          [infoBuyFound, LogLine.info "[+] ADD_TO_CART clicked",
           LogLine.info "[+] GO_TO_CART button found and clicked!",
           LogLine.info "[+] CHECKBOX found and and clicked!",
           LogLine.info "[+] CHECKOUT button found",
           LogLine.info "[+] Proceeding to checkout",
           LogLine.info "[+] waiting for page to load",
           LogLine.info "[+] found PAY button",
           LogLine.warn "[-] pay button not clicked",
           LogLine.info "[+] BUY!!", LogLine.info ("[+] QR URL: " ++ C.TARGET_PRODUCT),
           LogLine.info "[+] ALL THING DONE! LET\x27S PAY!",
           LogLine.warn "[!] CTRL+C When Everything Done!",
           LogLine.warn "[!] Total processing time: ? ms",
           LogLine.info ("[+] QR URL: " ++ C.TARGET_PRODUCT)],
        envIdx := 24, currentUrl := C.TARGET_PRODUCT,
        pageStorage := injectStorage C.STORAGE ([] : List (String × String)),
        closed := true, diverged := false }) ∧
    (run C (envFailAt 19 msg) 1 =
      { trace := preTrace C ++
          [waitBuyEv C, Event.locatorClick C.LOCATORS.BUY_NOW false,
           Event.evalHighlight C.LOCATORS.GO_TO_CART,
           Event.waitForSelector C.LOCATORS.GO_TO_CART (some 5000) false true,
           Event.locatorClick C.LOCATORS.GO_TO_CART true,
           Event.waitForNavigation false,
           Event.waitForSelector C.LOCATORS.CHECKBOX none false false,
           Event.locatorClick C.LOCATORS.CHECKBOX false,
           Event.waitForSelector C.LOCATORS.CHECKOUT (some 1000) false false,
           Event.locatorClick C.LOCATORS.CHECKOUT false,
           Event.waitForNavigation true, Event.delay 5000,
           Event.waitForSelector C.LOCATORS.PAY (some 8000) true false],
        logs := preLogs ++
          [infoBuyFound, LogLine.info "[+] ADD_TO_CART clicked",
           LogLine.info "[+] GO_TO_CART button found and clicked!",
           LogLine.info "[+] CHECKBOX found and and clicked!",
           LogLine.info "[+] CHECKOUT button found",
           LogLine.info "[+] Proceeding to checkout",
           LogLine.info "[+] waiting for page to load",
           LogLine.error ("[-] Error: " ++ msg)],
        envIdx := 20, currentUrl := C.TARGET_PRODUCT,
        pageStorage := injectStorage C.STORAGE ([] : List (String × String)),
        closed := false, diverged := false }) := by
  refine ⟨?_, ?_, ?_⟩ <;>
    simp [run, runBody, preSteps, mainSteps, pollBuyNow, doClose, tryCatch, fbind, fpure,
          envCall, logInfo, logWarn, logError, logInfoUrl, modifyS, setUrl, applyStorage,
          setClosed, markDiverged, doDelay, envFailAt, initState, preTrace, preLogs,
          waitBuyEv, infoBuyFound, fullTrace]

/-! ### Storage-injection lemmas (claim C5) -/

theorem getItem_setItem_self (st : StorageMap) (k v : String) :
    (st.setItem k v).getItem k = some v := by
  simp [StorageMap.setItem, StorageMap.getItem, List.find?]

theorem injectStorage_getItem_not_mem (seed : List (String × JsonVal)) (st : StorageMap)
    (k : String) (h : k ∉ seed.map Prod.fst) :
    (injectStorage seed st).getItem k = st.getItem k := by
  induction seed generalizing st with
  | nil => simp [injectStorage]
  | cons hd tl ih =>
    simp only [List.map_cons, List.mem_cons, not_or] at h
    have : (injectStorage (hd :: tl) st) = injectStorage tl (st.setItem hd.1 hd.2.stringify) := rfl
    rw [this, ih _ h.2]
    simp [StorageMap.setItem, StorageMap.getItem, List.find?, Ne.symm h.1]

/-- C5: the local-storage injection step stores, for each seed key, the JSON
serialization of its value: after injection, reading any seeded key from the
page's storage yields `JSON.stringify` of the seeded value (for a seed whose
keys are distinct, as JS object keys are). -/
theorem storage_injection_stores_stringify (seed : List (String × JsonVal)) (st : StorageMap)
    (k : String) (v : JsonVal) (hnd : (seed.map Prod.fst).Nodup) (hmem : (k, v) ∈ seed) :
    (injectStorage seed st).getItem k = some v.stringify := by
  induction seed generalizing st with
  | nil => cases hmem
  | cons hd tl ih =>
    have hstep : (injectStorage (hd :: tl) st) = injectStorage tl (st.setItem hd.1 hd.2.stringify) := rfl
    rw [List.map_cons, List.nodup_cons] at hnd
    rcases List.mem_cons.mp hmem with heq | htl
    · rw [hstep, injectStorage_getItem_not_mem tl _ k (by rw [← heq] at hnd; exact hnd.1)]
      rw [← heq]
      exact getItem_setItem_self st k v.stringify
    · rw [hstep]
      exact ih _ hnd.2 htl

/-- C5 witness: the specification's own example seed. -/
theorem storage_injection_stores_stringify_witness :
    (([("a", JsonVal.num 1), ("b", JsonVal.str "x")].map Prod.fst).Nodup) ∧
    ("a", JsonVal.num 1) ∈ [("a", JsonVal.num 1), ("b", JsonVal.str "x")] ∧
    (injectStorage [("a", JsonVal.num 1), ("b", JsonVal.str "x")]
        ([] : List (String × String))).getItem "a" = some "1" ∧
    (injectStorage [("a", JsonVal.num 1), ("b", JsonVal.str "x")]
        ([] : List (String × String))).getItem "b" = some "\"x\"" := by
  refine ⟨by decide, by decide, ?_, ?_⟩
  · simpa [JsonVal.stringify] using
      storage_injection_stores_stringify [("a", JsonVal.num 1), ("b", JsonVal.str "x")]
        ([] : List (String × String)) "a" (JsonVal.num 1) (by decide) (by decide)
  · simpa [JsonVal.stringify, jsonEscape, jsonEscapeChar] using
      storage_injection_stores_stringify [("a", JsonVal.num 1), ("b", JsonVal.str "x")]
        ([] : List (String × String)) "b" (JsonVal.str "x") (by decide) (by decide)

/-! ### The step-7 highlight page script (claim C10)

The script injected at step 7 (source lines 62-70) runs in page context:
`const btn = document.querySelector(selector); if (btn) { btn.style.position =
'fixed'; btn.style.zIndex = '9999'; btn.style.opacity = '1';
btn.style.display = 'block'; }`.  The DOM is modelled as an association list
from selector to element style; `querySelector` returns the first match. -/

abbrev Style : Type := List (String × String)

abbrev Dom : Type := List (String × Style)

def styleSet (st : Style) (prop v : String) : Style := (prop, v) :: st

def styleGet (st : Style) (prop : String) : Option String :=
  (st.find? (fun p => p.1 = prop)).map Prod.snd

/-- The four style assignments of the guarded branch. -/
def highlightStyles (st : Style) : Style :=
  styleSet (styleSet (styleSet (styleSet st "position" "fixed") "zIndex" "9999") "opacity" "1")
    "display" "block"

def querySelector (dom : Dom) (sel : String) : Option Style :=
  (dom.find? (fun p => p.1 = sel)).map Prod.snd

/-- The whole injected page script: a total function on the DOM. -/
def highlightScript : Dom → String → Dom
  | [], _ => []
  | p :: rest, sel =>
    if p.1 = sel then (p.1, highlightStyles p.2) :: rest
    else p :: highlightScript rest sel

/-- C10: the step-7 highlight page script guards on the element's existence:
when the selector matches no element the script is a no-op (and, being a
total function, it completes successfully); in every case each element is
either untouched or restyled by `highlightStyles`, and `highlightStyles`
changes only the position, z-index, opacity and display style properties. -/
theorem highlight_script_guarded (dom : Dom) (sel : String) :
    (querySelector dom sel = none → highlightScript dom sel = dom) ∧
    List.Forall₂ (fun p q => q = p ∨ (q.1 = p.1 ∧ q.2 = highlightStyles p.2))
      dom (highlightScript dom sel) ∧
    (∀ st prop, prop ≠ "position" → prop ≠ "zIndex" → prop ≠ "opacity" → prop ≠ "display" →
      styleGet (highlightStyles st) prop = styleGet st prop) := by
  refine ⟨?_, ?_, ?_⟩
  · induction dom with
    | nil => intro _; rfl
    | cons p rest ih =>
      intro hq
      simp only [querySelector, List.find?] at hq
      by_cases hp : p.1 = sel
      · simp [hp] at hq
      · simp only [highlightScript, hp, if_false]
        rw [ih (by simpa [querySelector, hp] using hq)]
  · induction dom with
    | nil => exact List.Forall₂.nil
    | cons p rest ih =>
      by_cases hp : p.1 = sel
      · simp only [highlightScript, hp, if_true]
        exact List.Forall₂.cons (Or.inr ⟨hp.symm, rfl⟩)
          ((List.forall₂_same).mpr (fun x _ => Or.inl rfl))
      · simp only [highlightScript, hp, if_false]
        exact List.Forall₂.cons (Or.inl rfl) ih
  · intro st prop h1 h2 h3 h4
    simp [highlightStyles, styleSet, styleGet, List.find?,
          Ne.symm h1, Ne.symm h2, Ne.symm h3, Ne.symm h4]

/-- C10 witness: a concrete DOM without the selector (no-op) and a concrete
unrelated style property left unchanged. -/
theorem highlight_script_guarded_witness :
    querySelector [("el", [("color", "red")])] "missing" = none ∧
    highlightScript [("el", [("color", "red")])] "missing" = [("el", [("color", "red")])] ∧
    styleGet (highlightStyles [("color", "red")]) "color" =
      styleGet [("color", "red")] "color" := by
  refine ⟨by decide, ?_, ?_⟩
  · exact (highlight_script_guarded [("el", [("color", "red")])] "missing").1 (by decide)
  · exact (highlight_script_guarded [("el", [("color", "red")])] "missing").2.2
      [("color", "red")] "color" (by decide) (by decide) (by decide) (by decide)

/-! ### Credentials noninterference (claim C9) -/

theorem run_creds_irrelevant (A B : CredsConst) (L : LocatorsConst) (T : String)
    (K : List Cookie) (S : List (String × JsonVal)) (env : Env) (fuel : Nat) :
    run ⟨A, L, T, K, S⟩ env fuel = run ⟨B, L, T, K, S⟩ env fuel := by
  simp only [run, runBody, preSteps, mainSteps, doClose]

/-- C9: the flow never reads the credentials: two loaded settings that differ
only in `creds` yield byte-identical runs — the same controller calls with
the same arguments and the same log output — for every environment and fuel. -/
theorem creds_noninterference (s1 s2 : Loaded) (h1 : s1.cookie = s2.cookie)
    (h2 : s1.storage = s2.storage) (h3 : s1.config = s2.config) (env : Env) (fuel : Nat) :
    run (constantAdapter s1) env fuel = run (constantAdapter s2) env fuel := by
  obtain ⟨c1, k1, st1, cf1⟩ := s1
  obtain ⟨c2, k2, st2, cf2⟩ := s2
  simp only at h1 h2 h3
  subst h1; subst h2; subst h3
  simp only [constantAdapter]
  exact run_creds_irrelevant _ _ _ _ _ _ env fuel

/-- A concrete loader configuration for witnesses. -/
def cfg0spec : ConfigCfg :=
  { locators :=
      { login_page := "lp", agreement := "ag", login_field := "lf", login_btn := "lb",
        password_field := "pf", buy_now := "bn", go_to_cart := "gc", checkout := "co",
        checkbox := "cb", pay := "pa", ordering := "od" }
    target_product := "tp" }

/-- C9 witness: two concrete settings differing only in username/password. -/
theorem creds_noninterference_witness :
    run (constantAdapter { creds := { username := "alice", password := "pw1" },
                           cookie := [], storage := [], config := cfg0spec }) envAllOk 1 =
    run (constantAdapter { creds := { username := "bob", password := "pw2" },
                           cookie := [], storage := [], config := cfg0spec }) envAllOk 1 :=
  creds_noninterference _ _ rfl rfl rfl envAllOk 1


/-! ### The step-6 poll (claim C3) -/


theorem pollBuyNow_succeeds (env : Env) (sel : String) (k : Nat) :
    ∀ (fuel : Nat) (s : FlowState), k < fuel →
    (∀ j, j < k → env (s.envIdx + j) ≠ Outcome.ok) →
    env (s.envIdx + k) = Outcome.ok →
    pollBuyNow env sel fuel s =
      ({ s with
          trace := s.trace ++
            List.replicate (k+1) (Event.waitForSelector sel (some 3000) false false),
          logs := s.logs ++ (List.replicate k warnBuy ++ [infoBuyFound]),
          envIdx := s.envIdx + (k+1) }, Except.ok true) := by
  induction k with
  | zero =>
    intro fuel s hk h1 h2
    match fuel, hk with
    | m + 1, _ =>
      rw [Nat.add_zero] at h2
      simp [pollBuyNow, tryCatch, fbind, envCall, logInfo, fpure, modifyS, h2,
            warnBuy, infoBuyFound]
  | succ k ih =>
    intro fuel s hk h1 h2
    match fuel, hk with
    | m + 1, _ =>
      have hne : env s.envIdx ≠ Outcome.ok := by
        have := h1 0 (Nat.succ_pos k)
        rwa [Nat.add_zero] at this
      rcases he : env s.envIdx with _ | msg
      · exact absurd he hne
      · have hrec := ih m
          ({ s with trace := s.trace ++ [Event.waitForSelector sel (some 3000) false false],
                    logs := s.logs ++ [warnBuy], envIdx := s.envIdx + 1 })
          (by omega)
          (by
            intro j hj
            simp only
            rw [Nat.add_assoc]
            exact h1 (1 + j) (by omega))
          (by
            simp only
            rw [Nat.add_assoc]
            rw [show 1 + k = k + 1 from Nat.add_comm 1 k]
            exact h2)
        simp only [pollBuyNow, tryCatch, flowM_bind_def, flowM_pure_def, fbind, envCall,
                   logInfo, logWarn, fpure, modifyS, he, warnBuy, infoBuyFound] at hrec ⊢
        rw [hrec]
        simp [List.replicate_succ, List.append_assoc]
        omega

theorem pollBuyNow_never_ok (env : Env) (sel : String) :
    ∀ (fuel : Nat) (s : FlowState), (∀ j, s.envIdx ≤ j → env j ≠ Outcome.ok) →
    pollBuyNow env sel fuel s =
      ({ s with
          trace := s.trace ++
            List.replicate fuel (Event.waitForSelector sel (some 3000) false false),
          logs := s.logs ++ List.replicate fuel warnBuy,
          envIdx := s.envIdx + fuel }, Except.ok false) := by
  intro fuel
  induction fuel with
  | zero => intro s h; simp [pollBuyNow, fpure]
  | succ m ih =>
    intro s h
    have hne : env s.envIdx ≠ Outcome.ok := h s.envIdx (Nat.le_refl _)
    rcases he : env s.envIdx with _ | msg
    · exact absurd he hne
    · have hrec := ih
        ({ s with trace := s.trace ++ [Event.waitForSelector sel (some 3000) false false],
                  logs := s.logs ++ [warnBuy], envIdx := s.envIdx + 1 })
        (by
          intro j hj
          have hj2 : s.envIdx + 1 ≤ j := hj
          exact h j (by omega))
      simp only [pollBuyNow, tryCatch, flowM_bind_def, flowM_pure_def, fbind, envCall,
                 logInfo, logWarn, fpure, modifyS, he, warnBuy, infoBuyFound] at hrec ⊢
      rw [hrec]
      simp [List.replicate_succ, List.append_assoc]
      omega

theorem preSteps_allOk (C : Constants) (env : Env) (h : ∀ i, i < 8 → env i = Outcome.ok) :
    preSteps C env initState =
      ({ trace := preTrace C, logs := preLogs, envIdx := 8, currentUrl := C.TARGET_PRODUCT,
         pageStorage := injectStorage C.STORAGE ([] : List (String × String)),
         closed := false, diverged := false }, Except.ok ()) := by
  have h0 := h 0 (by omega)
  have h1 := h 1 (by omega)
  have h2 := h 2 (by omega)
  have h3 := h 3 (by omega)
  have h4 := h 4 (by omega)
  have h5 := h 5 (by omega)
  have h6 := h 6 (by omega)
  have h7 := h 7 (by omega)
  simp [preSteps, flowM_bind_def, fbind, envCall, logInfo, modifyS, setUrl, applyStorage,
        initState, preTrace, preLogs, h0, h1, h2, h3, h4, h5, h6, h7]

theorem mainSteps_allOk (C : Constants) (env : Env) (s : FlowState)
    (h : ∀ i, s.envIdx ≤ i → env i = Outcome.ok) :
    mainSteps C env s =
      ({ s with trace := s.trace ++ postTrace C,
                logs := s.logs ++ postLogs s.currentUrl,
                envIdx := s.envIdx + 14 }, Except.ok ()) := by
  have h0 := h s.envIdx (Nat.le_refl _)
  have h1 := h (s.envIdx + 1) (by omega)
  have h2 := h (s.envIdx + 2) (by omega)
  have h3 := h (s.envIdx + 3) (by omega)
  have h4 := h (s.envIdx + 4) (by omega)
  have h5 := h (s.envIdx + 5) (by omega)
  have h6 := h (s.envIdx + 6) (by omega)
  have h7 := h (s.envIdx + 7) (by omega)
  have h8 := h (s.envIdx + 8) (by omega)
  have h9 := h (s.envIdx + 9) (by omega)
  have h10 := h (s.envIdx + 10) (by omega)
  have h11 := h (s.envIdx + 11) (by omega)
  have h12 := h (s.envIdx + 12) (by omega)
  have h13 := h (s.envIdx + 13) (by omega)
  simp [mainSteps, flowM_bind_def, fbind, tryCatch, envCall, logInfo, logWarn, logInfoUrl,
        modifyS, doDelay, postTrace, postLogs, h0, h1, h2, h3, h4, h5, h6, h7, h8, h9,
        h10, h11, h12, h13]

theorem doClose_ok (env : Env) (s : FlowState) (h : env s.envIdx = Outcome.ok) :
    doClose env s =
      ({ s with trace := s.trace ++ [Event.close], envIdx := s.envIdx + 1, closed := true },
       Except.ok ()) := by
  simp [doClose, flowM_bind_def, fbind, envCall, setClosed, modifyS, h]


theorem buy_poll_assembly (C : Constants) (k fuel : Nat) (hk : k < fuel) :
    run C (envK k) fuel =
      { trace := preTrace C ++ List.replicate (k+1) (waitBuyEv C) ++ postTrace C ++ [Event.close],
        logs := preLogs ++ (List.replicate k warnBuy ++ [infoBuyFound]) ++ postLogs C.TARGET_PRODUCT,
        envIdx := 8 + (k + 1) + 14 + 1, currentUrl := C.TARGET_PRODUCT,
        pageStorage := injectStorage C.STORAGE ([] : List (String × String)),
        closed := true, diverged := false } := by
  have hpre := preSteps_allOk C (envK k) (by
    intro i hi
    exact if_neg (by omega))
  have hpoll := pollBuyNow_succeeds (envK k) C.LOCATORS.BUY_NOW k fuel
    { trace := preTrace C, logs := preLogs, envIdx := 8, currentUrl := C.TARGET_PRODUCT,
      pageStorage := injectStorage C.STORAGE ([] : List (String × String)),
      closed := false, diverged := false }
    hk
    (by
      intro j hj
      show envK k (8 + j) ≠ Outcome.ok
      unfold envK
      rw [if_pos (show 8 ≤ 8 + j ∧ 8 + j < 8 + k from ⟨by omega, by omega⟩)]
      simp)
    (by
      show envK k (8 + k) = Outcome.ok
      unfold envK
      exact if_neg (by omega))
  have hmain := mainSteps_allOk C (envK k)
    { trace := preTrace C ++ List.replicate (k+1) (Event.waitForSelector C.LOCATORS.BUY_NOW (some 3000) false false),
      logs := preLogs ++ (List.replicate k warnBuy ++ [infoBuyFound]), envIdx := 8 + (k + 1),
      currentUrl := C.TARGET_PRODUCT,
      pageStorage := injectStorage C.STORAGE ([] : List (String × String)),
      closed := false, diverged := false }
    (by
      intro i hi
      have hi2 : 8 + (k + 1) ≤ i := hi
      show envK k i = Outcome.ok
      unfold envK
      exact if_neg (by omega))
  have hclose := doClose_ok (envK k)
    { trace := preTrace C ++
        (List.replicate (k+1) (Event.waitForSelector C.LOCATORS.BUY_NOW (some 3000) false false) ++
          postTrace C),
      logs := preLogs ++ (List.replicate k warnBuy ++ infoBuyFound :: postLogs C.TARGET_PRODUCT),
      envIdx := 8 + (k + 1) + 14, currentUrl := C.TARGET_PRODUCT,
      pageStorage := injectStorage C.STORAGE ([] : List (String × String)),
      closed := false, diverged := false }
    (by
      show envK k (8 + (k + 1) + 14) = Outcome.ok
      unfold envK
      exact if_neg (by omega))
  simp [run, runBody, flowM_bind_def, fbind, tryCatch, hpre, hpoll, hmain, hclose,
        waitBuyEv, List.append_assoc]


theorem buy_poll_divergence (C : Constants) (fuel : Nat) :
    run C envErrFrom8 fuel =
      { trace := preTrace C ++ List.replicate fuel (waitBuyEv C),
        logs := preLogs ++ List.replicate fuel warnBuy,
        envIdx := 8 + fuel, currentUrl := C.TARGET_PRODUCT,
        pageStorage := injectStorage C.STORAGE ([] : List (String × String)),
        closed := false, diverged := true } := by
  have hpre := preSteps_allOk C envErrFrom8 (by
    intro i hi
    exact if_pos hi)
  have hpoll := pollBuyNow_never_ok envErrFrom8 C.LOCATORS.BUY_NOW fuel
    { trace := preTrace C, logs := preLogs, envIdx := 8, currentUrl := C.TARGET_PRODUCT,
      pageStorage := injectStorage C.STORAGE ([] : List (String × String)),
      closed := false, diverged := false }
    (by
      intro j hj
      have hj2 : 8 ≤ j := hj
      show envErrFrom8 j ≠ Outcome.ok
      unfold envErrFrom8
      rw [if_neg (by omega)]
      simp)
  simp [run, runBody, flowM_bind_def, fbind, tryCatch, hpre, hpoll, markDiverged, modifyS,
        waitBuyEv, List.append_assoc]

/-- C3: in the step-6 buy-control poll, when the first `k` poll attempts time
out and the next succeeds (`envK k`), the flow issues exactly `k+1` wait
attempts — each a `waitForSelector` bounded to 3000ms — logging one warning
per timeout, and clicks the buy-now control exactly once, immediately after
the successful wait (the single buy-now click opens `postTrace`); and when
the selector never resolves (`envErrFrom8`), the loop never exits: for every
fuel bound the run is still polling (`diverged`), has issued only wait
attempts after the preamble, and has clicked nothing. -/
theorem buy_poll_retry_discipline (C : Constants) (k fuel : Nat) (hk : k < fuel) :
    ((run C (envK k) fuel).trace =
        preTrace C ++ List.replicate (k+1) (waitBuyEv C) ++ postTrace C ++ [Event.close] ∧
     (run C (envK k) fuel).logs =
        preLogs ++ (List.replicate k warnBuy ++ [infoBuyFound]) ++ postLogs C.TARGET_PRODUCT) ∧
    (∀ fuel2, (run C envErrFrom8 fuel2).trace = preTrace C ++ List.replicate fuel2 (waitBuyEv C) ∧
              (run C envErrFrom8 fuel2).logs = preLogs ++ List.replicate fuel2 warnBuy ∧
              (run C envErrFrom8 fuel2).diverged = true) := by
  refine ⟨⟨?_, ?_⟩, fun fuel2 => ⟨?_, ?_, ?_⟩⟩
  · rw [buy_poll_assembly C k fuel hk]
  · rw [buy_poll_assembly C k fuel hk]
  · rw [buy_poll_divergence C fuel2]
  · rw [buy_poll_divergence C fuel2]
  · rw [buy_poll_divergence C fuel2]

/-- C3 witness: two timeouts then success within fuel 3; and divergence
observed at fuel 5. -/
theorem buy_poll_retry_discipline_witness :
    2 < 3 ∧ (run C0spec envErrFrom8 5).diverged = true :=
  ⟨by omega, ((buy_poll_retry_discipline C0spec 2 3 (by omega)).2 5).2.2⟩


/-! ### Top-level failure handling (claim C6) -/


/-- The action never changes the `closed` flag. -/
def preservesClosed {α : Type} (m : FlowM α) : Prop :=
  ∀ s, ((m s).1).closed = s.closed

theorem preservesClosed_fbind {α β : Type} {m : FlowM α} {f : α → FlowM β}
    (hm : preservesClosed m) (hf : ∀ a, preservesClosed (f a)) :
    preservesClosed (fbind m f) := by
  intro s
  unfold fbind
  rcases hms : m s with ⟨s1, r⟩
  have h1 : s1.closed = s.closed := by
    have := hm s
    rw [hms] at this
    exact this
  cases r with
  | ok a => rw [hf a s1, h1]
  | error e => exact h1

theorem preservesClosed_tryCatch {α : Type} {m : FlowM α} {h : String → FlowM α}
    (hm : preservesClosed m) (hh : ∀ e, preservesClosed (h e)) :
    preservesClosed (tryCatch m h) := by
  intro s
  unfold tryCatch
  rcases hms : m s with ⟨s1, r⟩
  have h1 : s1.closed = s.closed := by
    have := hm s
    rw [hms] at this
    exact this
  cases r with
  | ok a => exact h1
  | error e => rw [hh e s1, h1]

theorem preservesClosed_envCall (env : Env) (ev : Event) :
    preservesClosed (envCall env ev) := by
  intro s
  unfold envCall
  rcases env s.envIdx with _ | msg <;> rfl

theorem preservesClosed_fpure {α : Type} (a : α) : preservesClosed (fpure a) :=
  fun _ => rfl

theorem preservesClosed_logInfo (m : String) : preservesClosed (logInfo m) :=
  fun _ => rfl

theorem preservesClosed_logWarn (m : String) : preservesClosed (logWarn m) :=
  fun _ => rfl

theorem preservesClosed_logInfoUrl (pre : String) : preservesClosed (logInfoUrl pre) :=
  fun _ => rfl

theorem preservesClosed_setUrl (u : String) : preservesClosed (setUrl u) :=
  fun _ => rfl

theorem preservesClosed_applyStorage (seed : List (String × JsonVal)) :
    preservesClosed (applyStorage seed) :=
  fun _ => rfl

theorem preservesClosed_doDelay (ms : Nat) : preservesClosed (doDelay ms) :=
  fun _ => rfl

theorem preservesClosed_markDiverged : preservesClosed markDiverged :=
  fun _ => rfl

theorem preSteps_closed (C : Constants) (env : Env) : preservesClosed (preSteps C env) := by
  unfold preSteps
  simp only [flowM_bind_def]
  repeat
    first
      | exact preservesClosed_envCall env _
      | exact preservesClosed_logInfo _
      | exact preservesClosed_setUrl _
      | exact preservesClosed_applyStorage _
      | refine preservesClosed_fbind ?_ (fun a => ?_)

theorem pollBuyNow_closed (env : Env) (sel : String) :
    ∀ (fuel : Nat), preservesClosed (pollBuyNow env sel fuel) := by
  intro fuel
  induction fuel with
  | zero => exact preservesClosed_fpure false
  | succ m ih =>
    show preservesClosed (pollBuyNow env sel (m + 1))
    unfold pollBuyNow
    simp only [flowM_bind_def]
    refine preservesClosed_tryCatch ?_ (fun e => ?_)
    · refine preservesClosed_fbind (preservesClosed_envCall env _) (fun a => ?_)
      refine preservesClosed_fbind (preservesClosed_logInfo _) (fun a => ?_)
      exact preservesClosed_fpure true
    · exact preservesClosed_fbind (preservesClosed_logWarn _) (fun a => ih)

theorem mainSteps_closed (C : Constants) (env : Env) : preservesClosed (mainSteps C env) := by
  unfold mainSteps
  simp only [flowM_bind_def]
  repeat
    first
      | exact preservesClosed_envCall env _
      | exact preservesClosed_logInfo _
      | exact preservesClosed_logWarn _
      | exact preservesClosed_logInfoUrl _
      | exact preservesClosed_doDelay _
      | refine preservesClosed_tryCatch ?_ (fun e => ?_)
      | refine preservesClosed_fbind ?_ (fun a => ?_)

theorem runBody_error_closed (C : Constants) (env : Env) (fuel : Nat) (s : FlowState)
    (e : String) (h : (runBody C env fuel s).2 = Except.error e) :
    (runBody C env fuel s).1.closed = s.closed := by
  unfold runBody at h ⊢
  simp only [flowM_bind_def, fbind] at h ⊢
  rcases hps : preSteps C env s with ⟨s1, r1⟩
  rw [hps] at h
  have hpc : s1.closed = s.closed := by
    have := preSteps_closed C env s
    rw [hps] at this
    exact this
  cases r1 with
  | error e1 => exact hpc
  | ok a =>
    dsimp only at h ⊢
    rcases hpl : pollBuyNow env C.LOCATORS.BUY_NOW fuel s1 with ⟨s2, r2⟩
    rw [hpl] at h
    have hplc : s2.closed = s1.closed := by
      have := pollBuyNow_closed env C.LOCATORS.BUY_NOW fuel s1
      rw [hpl] at this
      exact this
    cases r2 with
    | error e2 => rw [hplc]; exact hpc
    | ok found =>
      dsimp only at h ⊢
      cases found with
      | false =>
        simp only [Bool.false_eq_true, if_false, markDiverged, modifyS] at h
        simp at h
      | true =>
        simp only [if_true, flowM_bind_def, fbind] at h ⊢
        rcases hms : mainSteps C env s2 with ⟨s3, r3⟩
        rw [hms] at h
        have hmc : s3.closed = s2.closed := by
          have := mainSteps_closed C env s2
          rw [hms] at this
          exact this
        cases r3 with
        | error e3 => rw [hmc, hplc]; exact hpc
        | ok b =>
          dsimp only at h ⊢
          unfold doClose at h ⊢
          simp only [flowM_bind_def, fbind, envCall, setClosed, modifyS] at h ⊢
          rcases henv : env s3.envIdx with _ | msg
          · rw [henv] at h
            exact Except.noConfusion h
          · show s3.closed = s.closed
            rw [hmc, hplc]; exact hpc

/-- C6: every failure path leaks the browser: whenever the body of the
top-level `try` raises (any uncaught failure at any step), the handler
produces its single error log line and the run ends with no cleanup — the
trace is exactly the trace the body had produced and the browser is never
closed. -/
theorem failure_leaks_browser (C : Constants) (env : Env) (fuel : Nat) (e : String)
    (h : (runBody C env fuel initState).2 = Except.error e) :
    (run C env fuel).closed = false ∧
    (run C env fuel).trace = (runBody C env fuel initState).1.trace ∧
    (run C env fuel).logs =
      (runBody C env fuel initState).1.logs ++ [LogLine.error ("[-] Error: " ++ e)] := by
  have hc := runBody_error_closed C env fuel initState e h
  unfold run
  simp only [tryCatch]
  rcases hb : runBody C env fuel initState with ⟨s1, r1⟩
  rw [hb] at h hc
  dsimp only at h hc
  subst h
  exact ⟨hc, rfl, rfl⟩

/-- C6 witness: the launch call itself rejects. -/
theorem failure_leaks_browser_witness :
    (runBody C0spec (envFailAt 0 "boom") 1 initState).2 = Except.error "boom" ∧
    (run C0spec (envFailAt 0 "boom") 1).closed = false ∧
    (run C0spec (envFailAt 0 "boom") 1).logs =
      (runBody C0spec (envFailAt 0 "boom") 1 initState).1.logs ++
        [LogLine.error "[-] Error: boom"] := by
  refine ⟨by rfl, ?_, ?_⟩
  · exact (failure_leaks_browser C0spec (envFailAt 0 "boom") 1 "boom" (by rfl)).1
  · exact (failure_leaks_browser C0spec (envFailAt 0 "boom") 1 "boom" (by rfl)).2.2



/-! ### Trace alphabet (claim C8) -/

/-- The action appends only events satisfying `Q` to the trace. -/
def emitsWithin (Q : Event → Prop) {α : Type} (m : FlowM α) : Prop :=
  ∀ s e, e ∈ ((m s).1).trace → e ∈ s.trace ∨ Q e

theorem emitsWithin_fbind {Q : Event → Prop} {α β : Type} {m : FlowM α} {f : α → FlowM β}
    (hm : emitsWithin Q m) (hf : ∀ a, emitsWithin Q (f a)) :
    emitsWithin Q (fbind m f) := by
  intro s e he
  unfold fbind at he
  rcases hms : m s with ⟨s1, r⟩
  rw [hms] at he
  have h1 : e ∈ s1.trace → e ∈ s.trace ∨ Q e := by
    intro hin
    have := hm s e
    rw [hms] at this
    exact this hin
  cases r with
  | ok a =>
    rcases hf a s1 e he with hin | hq
    · exact h1 hin
    · exact Or.inr hq
  | error e1 => exact h1 he

theorem emitsWithin_tryCatch {Q : Event → Prop} {α : Type} {m : FlowM α}
    {h : String → FlowM α} (hm : emitsWithin Q m) (hh : ∀ e1, emitsWithin Q (h e1)) :
    emitsWithin Q (tryCatch m h) := by
  intro s e he
  unfold tryCatch at he
  rcases hms : m s with ⟨s1, r⟩
  rw [hms] at he
  have h1 : e ∈ s1.trace → e ∈ s.trace ∨ Q e := by
    intro hin
    have := hm s e
    rw [hms] at this
    exact this hin
  cases r with
  | ok a => exact h1 he
  | error e1 =>
    rcases hh e1 s1 e he with hin | hq
    · exact h1 hin
    · exact Or.inr hq

theorem emitsWithin_envCall {Q : Event → Prop} (env : Env) {ev : Event} (hQ : Q ev) :
    emitsWithin Q (envCall env ev) := by
  intro s e he
  unfold envCall at he
  rcases henv : env s.envIdx with _ | msg <;>
    rw [henv] at he <;>
    simp only [List.mem_append, List.mem_singleton] at he <;>
    first
      | exact Or.inl he
      | (rcases he with hin | rfl
         · exact Or.inl hin
         · exact Or.inr hQ)

theorem emitsWithin_doDelay {Q : Event → Prop} {ms : Nat} (hQ : Q (Event.delay ms)) :
    emitsWithin Q (doDelay ms) := by
  intro s e he
  simp only [doDelay, modifyS, List.mem_append, List.mem_singleton] at he
  rcases he with hin | rfl
  · exact Or.inl hin
  · exact Or.inr hQ

theorem emitsWithin_fpure {Q : Event → Prop} {α : Type} (a : α) : emitsWithin Q (fpure a) :=
  fun _ _ he => Or.inl he

theorem emitsWithin_logInfo {Q : Event → Prop} (m : String) : emitsWithin Q (logInfo m) :=
  fun _ _ he => Or.inl he

theorem emitsWithin_logWarn {Q : Event → Prop} (m : String) : emitsWithin Q (logWarn m) :=
  fun _ _ he => Or.inl he

theorem emitsWithin_logError {Q : Event → Prop} (m : String) : emitsWithin Q (logError m) :=
  fun _ _ he => Or.inl he

theorem emitsWithin_logInfoUrl {Q : Event → Prop} (pre : String) :
    emitsWithin Q (logInfoUrl pre) :=
  fun _ _ he => Or.inl he

theorem emitsWithin_setUrl {Q : Event → Prop} (u : String) : emitsWithin Q (setUrl u) :=
  fun _ _ he => Or.inl he

theorem emitsWithin_applyStorage {Q : Event → Prop} (seed : List (String × JsonVal)) :
    emitsWithin Q (applyStorage seed) :=
  fun _ _ he => Or.inl he

theorem emitsWithin_setClosed {Q : Event → Prop} : emitsWithin Q setClosed :=
  fun _ _ he => Or.inl he

theorem emitsWithin_markDiverged {Q : Event → Prop} : emitsWithin Q markDiverged :=
  fun _ _ he => Or.inl he

theorem emitsWithin_pollBuyNow {Q : Event → Prop} (env : Env) (sel : String)
    (hQ : Q (Event.waitForSelector sel (some 3000) false false)) :
    ∀ (fuel : Nat), emitsWithin Q (pollBuyNow env sel fuel) := by
  intro fuel
  induction fuel with
  | zero => exact emitsWithin_fpure false
  | succ m ih =>
    show emitsWithin Q (pollBuyNow env sel (m + 1))
    unfold pollBuyNow
    simp only [flowM_bind_def]
    refine emitsWithin_tryCatch ?_ (fun e1 => ?_)
    · refine emitsWithin_fbind (emitsWithin_envCall env hQ) (fun a => ?_)
      exact emitsWithin_fbind (emitsWithin_logInfo _) (fun a => emitsWithin_fpure true)
    · exact emitsWithin_fbind (emitsWithin_logWarn _) (fun a => ih)

set_option maxHeartbeats 1000000 in
theorem runBody_emitsWithin (C : Constants) (env : Env) (fuel : Nat) :
    emitsWithin (fun e => e ∈ fullTrace C) (runBody C env fuel) := by
  unfold runBody preSteps mainSteps doClose
  simp only [flowM_bind_def]
  repeat
    first
      | split
      | exact emitsWithin_envCall env (by simp [fullTrace])
      | exact emitsWithin_doDelay (by simp [fullTrace])
      | exact emitsWithin_pollBuyNow env _ (by simp [fullTrace]) fuel
      | exact emitsWithin_logInfo _
      | exact emitsWithin_logWarn _
      | exact emitsWithin_logInfoUrl _
      | exact emitsWithin_setUrl _
      | exact emitsWithin_applyStorage _
      | exact emitsWithin_setClosed
      | exact emitsWithin_markDiverged
      | refine emitsWithin_tryCatch ?_ (fun e1 => ?_)
      | refine emitsWithin_fbind ?_ (fun a => ?_)

/-- Every event of every run is an event of the program alphabet `fullTrace`. -/
theorem run_events_in_alphabet (C : Constants) (env : Env) (fuel : Nat) :
    ∀ e, e ∈ (run C env fuel).trace → e ∈ fullTrace C := by
  intro e he
  unfold run at he
  have := emitsWithin_tryCatch (runBody_emitsWithin C env fuel)
    (fun e1 => emitsWithin_logError (Q := fun e2 => e2 ∈ fullTrace C) ("[-] Error: " ++ e1))
    initState e he
  rcases this with hin | hq
  · cases hin
  · exact hq

/-- C8: for every Settings value, every environment and every fuel bound, the
flow only ever launches the browser non-headless and only ever sets the
viewport to the fixed in-code size 1080x1024; and on the all-resolving run
both calls are actually issued. -/
theorem launch_nonheadless_viewport_fixed (C : Constants) (env : Env) (fuel : Nat) :
    (∀ b, Event.launch b ∈ (run C env fuel).trace → b = false) ∧
    (∀ w h, Event.setViewport w h ∈ (run C env fuel).trace → w = 1080 ∧ h = 1024) ∧
    Event.launch false ∈ (run C envAllOk 1).trace ∧
    Event.setViewport 1080 1024 ∈ (run C envAllOk 1).trace := by
  refine ⟨?_, ?_, ?_, ?_⟩
  · intro b hb
    have := run_events_in_alphabet C env fuel _ hb
    simp [fullTrace] at this
    exact this
  · intro w h hwh
    have := run_events_in_alphabet C env fuel _ hwh
    simp [fullTrace] at this
    exact this
  · rw [run_allOk_eval]
    simp [fullTrace]
  · rw [run_allOk_eval]
    simp [fullTrace]

/-- C8 witness: the universal parts applied at a concrete run in which the
launch and viewport calls occur. -/
theorem launch_nonheadless_viewport_fixed_witness :
    Event.launch false ∈ (run C0spec envAllOk 1).trace ∧
    Event.setViewport 1080 1024 ∈ (run C0spec envAllOk 1).trace ∧
    false = false ∧ (1080 = 1080 ∧ 1024 = 1024) := by
  have h := launch_nonheadless_viewport_fixed C0spec envAllOk 1
  exact ⟨h.2.2.1, h.2.2.2, h.1 false h.2.2.1, h.2.1 1080 1024 h.2.2.2⟩

end LabubuBot
